import Mathlib

/-!
Shallow embedding of the interaction enumeration/selection core of the
GENIE-derived Reweight sources: the Target entity (Interaction/Target.cxx),
the single-pion-production interaction list generator
(EVGModules/RSPPInteractionListGenerator.cxx), the degenerate diffractive
generator (Diffractive/DfrcInteractionListGenerator.cxx) and the toy
interaction selector (EVGCore/ToyInteractionSelector.cxx).

External collaborators that are not part of the sources (the PDG particle
property table, the pdg utility predicates, the SppChannel static tables,
the random number service, the InteractionGeneratorMap) are modelled from
the spec, as noted on each such definition.
-/

/-- Four-momentum value, modelling a TLorentzVector (px, py, pz, E).
The core only stores and compares these values, so exact rational
components stand in for the C++ doubles. -/
structure P4 where
  px : Rat
  py : Rat
  pz : Rat
  e  : Rat
deriving DecidableEq, Repr

/-- Modelled from the spec: one entry of the external particle-property
table (PDGLibrary); only the mass is consumed by the core. -/
structure Particle where
  mass : Rat
deriving DecidableEq, Repr

/-- Modelled from the spec: the external PDGLibrary collaborator, exposing
find(code) returning an optional particle record; absence never raises. -/
structure PDGLib where
  find : Int → Option Particle

def kPdgProton : Int := 2212

def kPdgNeutron : Int := 2112

def kPdgPiPlus : Int := 211

def kPdgPi0 : Int := 111

def kPdgPiMinus : Int := -211

/-- Modelled from the spec: pdg utility, true for nu_e, nu_mu, nu_tau. -/
def pdgIsNeutrino (c : Int) : Bool := c == 12 || c == 14 || c == 16

/-- Modelled from the spec: pdg utility, true for the antineutrinos. -/
def pdgIsAntiNeutrino (c : Int) : Bool := c == -12 || c == -14 || c == -16

def pdgIsProton (c : Int) : Bool := c == kPdgProton

def pdgIsNeutron (c : Int) : Bool := c == kPdgNeutron

def pdgIsNeutronOrProton (c : Int) : Bool := pdgIsProton c || pdgIsNeutron c

/-- Modelled from the spec: pdg utility, true for the six quark codes. -/
def pdgIsQuark (c : Int) : Bool := decide (1 ≤ c ∧ c ≤ 6)

/-- Modelled from the spec: pdg utility, true for the six antiquark codes. -/
def pdgIsAntiQuark (c : Int) : Bool := decide (-6 ≤ c ∧ c ≤ -1)

/-- Modelled from the spec: the composite identity code that keys the
isotope validity table, built from (Z,A). -/
def ionPdgCode (A Z : Int) : Int := 1000000000 + Z * 10000 + A * 10

/-- Modelled from the spec: pdg utility, true for codes in the ion range. -/
def pdgIsIon (c : Int) : Bool := decide (1000000000 ≤ c ∧ c < 2000000000)

def ionPdgCodeToZ (c : Int) : Int := (c / 10000) % 1000

def ionPdgCodeToA (c : Int) : Int := (c / 10) % 1000

/-- Modelled from the spec: the external nucleon-mass constant used by
Target::Init for the default struck-nucleon four-momentum. Masses are
recorded in keV so every mass value in this file is an integer-valued
rational; the unit choice is invisible to the embedded operations. -/
def kNucleonMass : Rat := 938919

/-- The Target entity of Interaction/Target.cxx: nuclear or particle
identity plus the optional struck-nucleon and struck-quark sub-state.
The struck-nucleon four-momentum pointer is allocated by Init and never
null afterwards, so it is held here as a plain value. -/
structure Target where
  fZ : Int
  fA : Int
  fTgtPDG : Int
  fStruckNucPDG : Int
  fStruckQuarkPDG : Int
  fStruckSeaQuark : Bool
  fStruckNucP4 : P4
deriving DecidableEq, Repr

/-- Target::Init. -/
def initTarget : Target :=
  { fZ := 0, fA := 0, fTgtPDG := 0, fStruckNucPDG := 0, fStruckQuarkPDG := 0,
    fStruckSeaQuark := false, fStruckNucP4 := ⟨0, 0, 0, kNucleonMass⟩ }

namespace Target

def Z (t : Target) : Int := t.fZ

def N (t : Target) : Int := t.fA - t.fZ

def A (t : Target) : Int := t.fA

def PDGCode (t : Target) : Int := t.fTgtPDG

def IsFreeNucleon (t : Target) : Bool := decide (t.fA = 1 ∧ (t.fZ = 0 ∨ t.fZ = 1))

def IsProton (t : Target) : Bool := decide (t.fA = 1 ∧ t.fZ = 1)

def IsNeutron (t : Target) : Bool := decide (t.fA = 1 ∧ t.fZ = 0)

def IsNucleus (t : Target) : Bool := decide (1 < t.fA)

def StruckNucleonIsSet (t : Target) : Bool := pdgIsNeutronOrProton t.fStruckNucPDG

def StruckQuarkIsSet (t : Target) : Bool :=
  pdgIsQuark t.fStruckQuarkPDG || pdgIsAntiQuark t.fStruckQuarkPDG

def StruckQuarkIsFromSea (t : Target) : Bool := t.fStruckSeaQuark

/-- Target::IsValidNucleus: a free nucleon, or a nucleus whose ion code is
found in the PDG extensions of the library. -/
def IsValidNucleus (lib : PDGLib) (t : Target) : Bool :=
  t.IsFreeNucleon || (lib.find (ionPdgCode t.fA t.fZ)).isSome

/-- Target::ForceStruckNucleonValidity: resets the struck-nucleon code to 0
when it is neither a proton nor a neutron; returns the validity flag. -/
def ForceStruckNucleonValidity (t : Target) : Bool × Target :=
  if pdgIsProton t.fStruckNucPDG || pdgIsNeutron t.fStruckNucPDG then (true, t)
  else (false, { t with fStruckNucPDG := 0 })

/-- Target::ForceNucleusValidity: resets Z and A to 0 (with a logged
warning) when (Z,A) is neither a free nucleon nor a known isotope. -/
def ForceNucleusValidity (lib : PDGLib) (t : Target) : Target :=
  if t.IsValidNucleus lib then t else { t with fZ := 0, fA := 0 }

/-- Target::SetStruckNucleonP4: replaces the owned four-momentum value. -/
def SetStruckNucleonP4 (p4 : P4) (t : Target) : Target :=
  { t with fStruckNucP4 := p4 }

/-- Target::SetStruckNucleonPDGCode: store the code, force its validity,
and on a valid code reset the four-momentum to the at-rest on-shell value
using the mass from the particle table. The C++ dereferences the table
lookup without a null check, so a missing table entry is the none outcome
here; the operation never fails otherwise. -/
def SetStruckNucleonPDGCode (lib : PDGLib) (c : Int) (t : Target) : Option Target :=
  let t1 := { t with fStruckNucPDG := c }
  let r := t1.ForceStruckNucleonValidity
  if r.1 then (lib.find c).map (fun p => r.2.SetStruckNucleonP4 ⟨0, 0, 0, p.mass⟩)
  else some r.2

/-- Target::SetStruckQuarkPDGCode: a no-op unless the code is a quark or
an antiquark. -/
def SetStruckQuarkPDGCode (c : Int) (t : Target) : Target :=
  if pdgIsQuark c || pdgIsAntiQuark c then { t with fStruckQuarkPDG := c } else t

/-- Target::SetStruckSeaQuark. -/
def SetStruckSeaQuark (tf : Bool) (t : Target) : Target :=
  { t with fStruckSeaQuark := tf }

/-- Target::SetZA: store Z and A, force nucleus validity, and when the
result is a free nucleon auto-populate the struck-nucleon sub-state. -/
def SetZA (lib : PDGLib) (Zv Av : Int) (t : Target) : Option Target :=
  let t1 := { t with fZ := Zv, fA := Av }
  let t2 := t1.ForceNucleusValidity lib
  if t2.IsFreeNucleon then
    if t2.IsProton then t2.SetStruckNucleonPDGCode lib kPdgProton
    else t2.SetStruckNucleonPDGCode lib kPdgNeutron
  else some t2

/-- Target::Copy: re-initialize, copy the target PDG code, and copy the
remaining fields (with a fresh deep copy of the four-momentum value and
re-forced validities) only when the code is an ion code. -/
def Copy (lib : PDGLib) (tgt : Target) : Target :=
  let t := { initTarget with fTgtPDG := tgt.fTgtPDG }
  if pdgIsIon tgt.fTgtPDG then
    let t1 := { t with fZ := tgt.fZ, fA := tgt.fA,
                       fStruckNucPDG := tgt.fStruckNucPDG,
                       fStruckQuarkPDG := tgt.fStruckQuarkPDG,
                       fStruckSeaQuark := tgt.fStruckSeaQuark,
                       fStruckNucP4 := tgt.fStruckNucP4 }
    let t2 := t1.ForceNucleusValidity lib
    t2.ForceStruckNucleonValidity.2
  else t

end Target

/-- Target::Target(Z,A): initialize, set the ion PDG code and run SetZA. -/
def mkTargetZA (lib : PDGLib) (Zv Av : Int) : Option Target :=
  Target.SetZA lib Zv Av { initTarget with fTgtPDG := ionPdgCode Av Zv }

/-- Target::Target(pdgc): initialize, store the code, and when it is an
ion code decode (Z,A) and run SetZA. -/
def mkTargetPdg (lib : PDGLib) (pdgc : Int) : Option Target :=
  let t := { initTarget with fTgtPDG := pdgc }
  if pdgIsIon pdgc then
    Target.SetZA lib (ionPdgCodeToZ pdgc) (ionPdgCodeToA pdgc) t
  else some t

/-- The single-pion-production channels used by the RSPP generator.
The constructors are the named constants appearing in
RSPPInteractionListGenerator.cxx; the digit suffix encodes the final
state as (nProton, nNeutron, nPiPlus, nPi0, nPiMinus). -/
inductive SppChannel_t where
  | kSppNull
  | kSpp_vp_cc_10100
  | kSpp_vn_cc_10010
  | kSpp_vn_cc_01100
  | kSpp_vp_nc_10010
  | kSpp_vp_nc_01100
  | kSpp_vn_nc_01010
  | kSpp_vn_nc_10001
  | kSpp_vbn_cc_01001
  | kSpp_vbp_cc_01010
  | kSpp_vbp_cc_10001
  | kSpp_vbp_nc_10010
  | kSpp_vbp_nc_01100
  | kSpp_vbn_nc_01010
  | kSpp_vbn_nc_10001
deriving DecidableEq, Repr

namespace SppChannel

open SppChannel_t

/-- Modelled from the spec: SppChannel::InitStateNucleon maps each channel
constant to its required initial-state nucleon (the vp and vbp channels hit
a proton, the vn and vbn channels hit a neutron), matching the reaction
table in the comment of RSPPInteractionListGenerator::CreateInteractionList. -/
def InitStateNucleon : SppChannel_t → Int
  | kSppNull => 0
  | kSpp_vp_cc_10100 => kPdgProton
  | kSpp_vn_cc_10010 => kPdgNeutron
  | kSpp_vn_cc_01100 => kPdgNeutron
  | kSpp_vp_nc_10010 => kPdgProton
  | kSpp_vp_nc_01100 => kPdgProton
  | kSpp_vn_nc_01010 => kPdgNeutron
  | kSpp_vn_nc_10001 => kPdgNeutron
  | kSpp_vbn_cc_01001 => kPdgNeutron
  | kSpp_vbp_cc_01010 => kPdgProton
  | kSpp_vbp_cc_10001 => kPdgProton
  | kSpp_vbp_nc_10010 => kPdgProton
  | kSpp_vbp_nc_01100 => kPdgProton
  | kSpp_vbn_nc_01010 => kPdgNeutron
  | kSpp_vbn_nc_10001 => kPdgNeutron

/-- Modelled from the spec: SppChannel::FinStateNucleon, the final-state
nucleon of each channel per the reaction table in the source comment. -/
def FinStateNucleon : SppChannel_t → Int
  | kSppNull => 0
  | kSpp_vp_cc_10100 => kPdgProton
  | kSpp_vn_cc_10010 => kPdgProton
  | kSpp_vn_cc_01100 => kPdgNeutron
  | kSpp_vp_nc_10010 => kPdgProton
  | kSpp_vp_nc_01100 => kPdgNeutron
  | kSpp_vn_nc_01010 => kPdgNeutron
  | kSpp_vn_nc_10001 => kPdgProton
  | kSpp_vbn_cc_01001 => kPdgNeutron
  | kSpp_vbp_cc_01010 => kPdgNeutron
  | kSpp_vbp_cc_10001 => kPdgProton
  | kSpp_vbp_nc_10010 => kPdgProton
  | kSpp_vbp_nc_01100 => kPdgNeutron
  | kSpp_vbn_nc_01010 => kPdgNeutron
  | kSpp_vbn_nc_10001 => kPdgProton

/-- Modelled from the spec: SppChannel::FinStatePion, the final-state pion
of each channel per the reaction table in the source comment. -/
def FinStatePion : SppChannel_t → Int
  | kSppNull => 0
  | kSpp_vp_cc_10100 => kPdgPiPlus
  | kSpp_vn_cc_10010 => kPdgPi0
  | kSpp_vn_cc_01100 => kPdgPiPlus
  | kSpp_vp_nc_10010 => kPdgPi0
  | kSpp_vp_nc_01100 => kPdgPiPlus
  | kSpp_vn_nc_01010 => kPdgPi0
  | kSpp_vn_nc_10001 => kPdgPiMinus
  | kSpp_vbn_cc_01001 => kPdgPiMinus
  | kSpp_vbp_cc_01010 => kPdgPi0
  | kSpp_vbp_cc_10001 => kPdgPiMinus
  | kSpp_vbp_nc_10010 => kPdgPi0
  | kSpp_vbp_nc_01100 => kPdgPiPlus
  | kSpp_vbn_nc_01010 => kPdgPi0
  | kSpp_vbn_nc_10001 => kPdgPiMinus

end SppChannel

/-- Scattering type tag (kScResonant in the RSPP generator). -/
inductive ScatteringTy where
  | resonant
deriving DecidableEq, Repr

/-- Current type tag (kIntWeakCC / kIntWeakNC). -/
inductive InteractionTy where
  | weakCC
  | weakNC
deriving DecidableEq, Repr

/-- ProcessInfo value: scattering mechanism plus current type. -/
structure ProcessInfo where
  scattering : ScatteringTy
  current : InteractionTy
deriving DecidableEq, Repr

/-- XclsTag value: the final-state multiplicity signature set by
RSPPInteractionListGenerator::AddFinalStateInfo. -/
structure XclsTag where
  nProton : Nat
  nNeutron : Nat
  nPiPlus : Nat
  nPi0 : Nat
  nPiMinus : Nat
deriving DecidableEq, Repr

/-- InitialState: probe identity and four-momentum plus the Target.
Modelled from the spec for the fields not visible in the sources; copying
an InitialState is modelled as a value copy. -/
structure InitialState where
  probePdg : Int
  probeP4 : P4
  tgt : Target
deriving DecidableEq, Repr

/-- InitialState::SetProbeP4, modelled from the spec (inject a probe
four-momentum into an initial state). -/
def InitialState.SetProbeP4 (p4 : P4) (s : InitialState) : InitialState :=
  { s with probeP4 := p4 }

/-- Interaction aggregate: InitialState + ProcessInfo + ExclusiveTag. -/
structure Interaction where
  initState : InitialState
  procInfo : ProcessInfo
  exclTag : XclsTag
deriving DecidableEq, Repr

/-- RSPPInteractionListGenerator::AddFinalStateInfo: derive the one-hot
exclusive tag from the final-state nucleon and pion of a channel; an
unrecognized identity contributes zero counts (error logged, processing
continues). -/
def addFinalStateInfo (chan : SppChannel_t) : XclsTag :=
  let nucpdg := SppChannel.FinStateNucleon chan
  let pipdg := SppChannel.FinStatePion chan
  { nProton := if nucpdg = kPdgProton then 1 else 0,
    nNeutron := if nucpdg = kPdgNeutron then 1 else 0,
    nPiPlus := if pipdg = kPdgPiPlus then 1 else 0,
    nPi0 := if pipdg = kPdgPi0 then 1 else 0,
    nPiMinus := if pipdg = kPdgPiMinus then 1 else 0 }

/-- One admitted channel of the RSPP loop body: construct an Interaction
from a copy of the initial state and the process info, set the struck
nucleon of its target to the channel initial-state nucleon (through the
Target setter, which also resets the on-shell four-momentum from the
particle table; a missing nucleon table entry is the none outcome), and
attach the exclusive tag built by AddFinalStateInfo. -/
def mkSppInteraction (lib : PDGLib) (cur : InteractionTy) (s : InitialState)
    (chan : SppChannel_t) : Option Interaction :=
  (s.tgt.SetStruckNucleonPDGCode lib (SppChannel.InitStateNucleon chan)).map
    fun t =>
      { initState := { s with tgt := t },
        procInfo := { scattering := ScatteringTy.resonant, current := cur },
        exclTag := addFinalStateInfo chan }

/-- The channel admission test of the RSPP loops: the required initial
nucleon must be available on the target (a proton needs Z greater than 0,
a neutron needs N greater than 0). -/
def sppAdmit (hasP hasN : Bool) (chan : SppChannel_t) : Bool :=
  (SppChannel.InitStateNucleon chan == kPdgProton && hasP) ||
  (SppChannel.InitStateNucleon chan == kPdgNeutron && hasN)

open SppChannel_t in
/-- The neutrino CC channel table as assigned in the source (indices 0..2
of nucc_channels for a neutrino probe). -/
def nuCCchannels : List SppChannel_t :=
  [kSpp_vp_cc_10100, kSpp_vn_cc_10010, kSpp_vn_cc_01100]

open SppChannel_t in
/-- The neutrino NC channel table as assigned in the source (indices 0..3
of nunc_channels for a neutrino probe; the declared length of that array
is settled separately by the bounds analysis below). -/
def nuNCchannels : List SppChannel_t :=
  [kSpp_vp_nc_10010, kSpp_vp_nc_01100, kSpp_vn_nc_01010, kSpp_vn_nc_10001]

open SppChannel_t in
/-- The antineutrino CC channel table as assigned in the source. -/
def nubCCchannels : List SppChannel_t :=
  [kSpp_vbn_cc_01001, kSpp_vbp_cc_01010, kSpp_vbp_cc_10001]

open SppChannel_t in
/-- The antineutrino NC channel table as assigned in the source. -/
def nubNCchannels : List SppChannel_t :=
  [kSpp_vbp_nc_10010, kSpp_vbp_nc_01100, kSpp_vbn_nc_01010, kSpp_vbn_nc_10001]

/-- DfrcInteractionListGenerator::CreateInteractionList: allocates a fresh
InteractionList and returns it untouched, for every initial state. -/
def dfrcCreateInteractionList (_s : InitialState) : Option (List Interaction) :=
  some []

/-- Clone an Interaction and inject a probe four-momentum into the
InitialState of the clone, as the selector does after drawing. -/
def injectProbe (p4 : P4) (i : Interaction) : Interaction :=
  { i with initState := i.initState.SetProbeP4 p4 }

/-- A default Interaction value, used only as the getD fallback when
reading the heap in the selector model. -/
def dummyInteraction : Interaction :=
  { initState := { probePdg := 0, probeP4 := ⟨0, 0, 0, 0⟩, tgt := initTarget },
    procInfo := { scattering := ScatteringTy.resonant, current := InteractionTy.weakCC },
    exclTag := { nProton := 0, nNeutron := 0, nPiPlus := 0, nPi0 := 0, nPiMinus := 0 } }

/-- Modelled from the spec: the InteractionGeneratorMap handle passed to
the selector. It holds one entry per candidate Interaction of the list
returned by GetInteractionList, so its size is the length of that list;
the list elements stay owned by the map and are modelled as addresses into
an explicit heap of allocated Interaction objects. -/
structure IGMap where
  ilist : List Nat
deriving DecidableEq, Repr

/-- EventRecord: owns exactly one attached Interaction summary, modelled
as the heap address of the attached object. -/
structure EventRecord where
  summary : Nat
deriving DecidableEq, Repr

/-- ToyInteractionSelector::SelectInteraction over an explicit heap of
allocated Interaction objects (addresses are heap indices; allocation
appends). A null map handle or a zero-size map returns NULL (none) before
any allocation; otherwise the random service draws an index iint into the
interaction list, the Interaction at that address is cloned into a fresh
heap cell, the supplied probe four-momentum is injected into the clone,
and a fresh EventRecord attaching the clone is returned together with the
extended heap. rnd models RandomGen Integer: a draw over communicated
bound nint. -/
def selectInteraction (rnd : Nat → Nat) (heap : List Interaction)
    (igmap : Option IGMap) (p4 : P4) :
    Option (List Interaction × EventRecord) :=
  match igmap with
  | none => none
  | some m =>
    if m.ilist.length ≤ 0 then none
    else
      let nint := m.ilist.length
      let iint := rnd nint
      let addr := m.ilist.getD iint 0
      let interaction := heap.getD addr dummyInteraction
      let selected := injectProbe p4 interaction
      some (heap ++ [selected], { summary := heap.length })

/-- Bounds-checked array write: the C++ stack arrays of the RSPP generator
are modelled with their declared lengths, and a write outside the declared
length is the none (out-of-bounds) outcome. -/
def arrSet (a : List SppChannel_t) (i : Nat) (x : SppChannel_t) :
    Option (List SppChannel_t) :=
  if i < a.length then some (a.set i x) else none

/-- Bounds-checked array read. -/
def arrGet (a : List SppChannel_t) (i : Nat) : Option SppChannel_t :=
  a.get? i

/-- The constant n_nucc_channels of CreateInteractionList. -/
def n_nucc_channels : Nat := 3

/-- The constant n_nunc_channels of CreateInteractionList. -/
def n_nunc_channels : Nat := 4

/-- The nucc_channels array exactly as declared and assigned in
CreateInteractionList: declared with length n_nucc_channels, zero filled
with kSppNull, then written at indices 0, 1 and 2 in the probe-sign
branch. Checked writes: the result is none if any write is out of the
declared bounds. -/
def nuccChannelsArr (nupdg : Int) : Option (List SppChannel_t) :=
  let init := List.replicate n_nucc_channels SppChannel_t.kSppNull
  if pdgIsNeutrino nupdg then
    (arrSet init 0 SppChannel_t.kSpp_vp_cc_10100).bind fun a =>
    (arrSet a 1 SppChannel_t.kSpp_vn_cc_10010).bind fun a =>
    arrSet a 2 SppChannel_t.kSpp_vn_cc_01100
  else if pdgIsAntiNeutrino nupdg then
    (arrSet init 0 SppChannel_t.kSpp_vbn_cc_01001).bind fun a =>
    (arrSet a 1 SppChannel_t.kSpp_vbp_cc_01010).bind fun a =>
    arrSet a 2 SppChannel_t.kSpp_vbp_cc_10001
  else none

/-- The nunc_channels array exactly as declared and assigned in
CreateInteractionList: the source declares it with length n_nucc_channels
(not n_nunc_channels), zero filled with kSppNull, and then writes indices
0, 1, 2 and 3 in the probe-sign branch. Checked writes: the result is
none if any write is out of the declared bounds. -/
def nuncChannelsArr (nupdg : Int) : Option (List SppChannel_t) :=
  let init := List.replicate n_nucc_channels SppChannel_t.kSppNull
  if pdgIsNeutrino nupdg then
    (arrSet init 0 SppChannel_t.kSpp_vp_nc_10010).bind fun a =>
    (arrSet a 1 SppChannel_t.kSpp_vp_nc_01100).bind fun a =>
    (arrSet a 2 SppChannel_t.kSpp_vn_nc_01010).bind fun a =>
    arrSet a 3 SppChannel_t.kSpp_vn_nc_10001
  else if pdgIsAntiNeutrino nupdg then
    (arrSet init 0 SppChannel_t.kSpp_vbp_nc_10010).bind fun a =>
    (arrSet a 1 SppChannel_t.kSpp_vbp_nc_01100).bind fun a =>
    (arrSet a 2 SppChannel_t.kSpp_vbn_nc_01010).bind fun a =>
    arrSet a 3 SppChannel_t.kSpp_vbn_nc_10001
  else none

/-- The reads performed by the CC loop (nucc_channels[i] for i below
n_nucc_channels): all of them must stay in bounds for the loop to be
bounds safe. -/
def ccLoopReadsOk (a : List SppChannel_t) : Bool :=
  (List.range n_nucc_channels).all fun i => (arrGet a i).isSome

/-- The reads performed by the NC loop (nunc_channels[i] for i below
n_nunc_channels): all of them must stay in bounds for the loop to be
bounds safe. -/
def ncLoopReadsOk (a : List SppChannel_t) : Bool :=
  (List.range n_nunc_channels).all fun i => (arrGet a i).isSome

/-- The CC or NC loop of CreateInteractionList over a channel array, read
through checked indexing: iteration i reads channels[i]; an out-of-bounds
read, like a missing particle-table entry inside the loop body, propagates
as the none (undefined) outcome. Each admitted channel appends one
constructed Interaction to the list. -/
def sppLoopArr (lib : PDGLib) (cur : InteractionTy) (s : InitialState)
    (hasP hasN : Bool) (arr : List SppChannel_t) : List Nat → Option (List Interaction)
  | [] => some []
  | i :: rest =>
    (arrGet arr i).bind fun chan =>
      if sppAdmit hasP hasN chan then
        (mkSppInteraction lib cur s chan).bind fun itn =>
          (sppLoopArr lib cur s hasP hasN arr rest).map fun l => itn :: l
      else sppLoopArr lib cur s hasP hasN arr rest

/-- RSPPInteractionListGenerator::CreateInteractionList, embedded with the
stack arrays at their declared lengths and every array access bounds
checked. The outer Option is the undefined outcome: an out-of-bounds write
in the array-fill stage (the nunc_channels fill hits one at index 3 for
every neutrino or antineutrino probe, see the bounds analysis above), an
out-of-bounds loop read, or a missing particle-table entry inside a loop
body. The inner Option is the returned pointer: none is the NULL return
(unsupported probe, or a zero-size list deleted at the end), some a
non-null InteractionList. As in the source, the fill stage runs for every
supported probe before the CC/NC dispatch, and an unsupported probe
returns NULL before any array is written. -/
def createInteractionList (lib : PDGLib) (fIsCC fIsNC : Bool)
    (s : InitialState) : Option (Option (List Interaction)) :=
  let nupdg := s.probePdg
  if pdgIsNeutrino nupdg || pdgIsAntiNeutrino nupdg then
    (nuccChannelsArr nupdg).bind fun nucc =>
    (nuncChannelsArr nupdg).bind fun nunc =>
      let hasP : Bool := decide (0 < s.tgt.Z)
      let hasN : Bool := decide (0 < s.tgt.N)
      let res : Option (List Interaction) :=
        if fIsCC then
          sppLoopArr lib InteractionTy.weakCC s hasP hasN nucc
            (List.range n_nucc_channels)
        else if fIsNC then
          sppLoopArr lib InteractionTy.weakNC s hasP hasN nunc
            (List.range n_nunc_channels)
        else some []
      res.map fun l => if l.length = 0 then none else some l
  else some none

/-- The nunc_channels fill with the declaration repaired to its evident
intent: length n_nunc_channels = 4, the constant the source declares,
uses as the NC loop bound, and matches with its four initializing writes
and with the four NC channels of its own comment. Identical to
nuncChannelsArr in every other respect. This definition is deliberately
not the source: it documents the one-constant repair that the declared
bound slip calls for. -/
def nuncChannelsArrFixed (nupdg : Int) : Option (List SppChannel_t) :=
  let init := List.replicate n_nunc_channels SppChannel_t.kSppNull
  if pdgIsNeutrino nupdg then
    (arrSet init 0 SppChannel_t.kSpp_vp_nc_10010).bind fun a =>
    (arrSet a 1 SppChannel_t.kSpp_vp_nc_01100).bind fun a =>
    (arrSet a 2 SppChannel_t.kSpp_vn_nc_01010).bind fun a =>
    arrSet a 3 SppChannel_t.kSpp_vn_nc_10001
  else if pdgIsAntiNeutrino nupdg then
    (arrSet init 0 SppChannel_t.kSpp_vbp_nc_10010).bind fun a =>
    (arrSet a 1 SppChannel_t.kSpp_vbp_nc_01100).bind fun a =>
    (arrSet a 2 SppChannel_t.kSpp_vbn_nc_01010).bind fun a =>
    arrSet a 3 SppChannel_t.kSpp_vbn_nc_10001
  else none

/-- CreateInteractionList with the single repair of the nunc_channels
declared length (nuncChannelsArrFixed in place of nuncChannelsArr),
otherwise identical to the faithful embedding above. It documents, for
the code-bug divergence records, the behavior that the source misses only
by the declared bound. -/
def createInteractionListFixed (lib : PDGLib) (fIsCC fIsNC : Bool)
    (s : InitialState) : Option (Option (List Interaction)) :=
  let nupdg := s.probePdg
  if pdgIsNeutrino nupdg || pdgIsAntiNeutrino nupdg then
    (nuccChannelsArr nupdg).bind fun nucc =>
    (nuncChannelsArrFixed nupdg).bind fun nunc =>
      let hasP : Bool := decide (0 < s.tgt.Z)
      let hasN : Bool := decide (0 < s.tgt.N)
      let res : Option (List Interaction) :=
        if fIsCC then
          sppLoopArr lib InteractionTy.weakCC s hasP hasN nucc
            (List.range n_nucc_channels)
        else if fIsNC then
          sppLoopArr lib InteractionTy.weakNC s hasP hasN nunc
            (List.range n_nunc_channels)
        else some []
      res.map fun l => if l.length = 0 then none else some l
  else some none


/-- A concrete particle-property table used to instantiate the theorems:
it knows the proton, the neutron and the deuteron ion code. -/
def concLib : PDGLib :=
  { find := fun c =>
      if c = 2212 then some { mass := 938272 }
      else if c = 2112 then some { mass := 939565 }
      else if c = 1000010020 then some { mass := 1875613 }
      else none }

/-- The struck-nucleon and final-state signature of a candidate, used to
state that enumerated candidates are pairwise distinct. -/
def sppSignature (i : Interaction) : Int × XclsTag :=
  (i.initState.tgt.fStruckNucPDG, i.exclTag)

/-- The proton entry of the concrete witness table. -/
def concProton : Particle := { mass := 938272 }

/-- The neutron entry of the concrete witness table. -/
def concNeutron : Particle := { mass := 939565 }

/-- A deuterium target value (Z=1, A=2), as Target::Target(1,2) builds it
before SetZA runs, used to instantiate theorems on a target having both a
proton and a neutron. -/
def tgtDeuterium : Target := { initTarget with fZ := 1, fA := 2, fTgtPDG := ionPdgCode 2 1 }

/-- A free-proton target value (Z=1, A=1, N=0). -/
def tgtFreeProton : Target :=
  { initTarget with fZ := 1, fA := 1, fTgtPDG := ionPdgCode 1 1, fStruckNucPDG := kPdgProton }

/-- A muon-neutrino initial state on deuterium. -/
def isNuDeuterium : InitialState :=
  { probePdg := 14, probeP4 := ⟨0, 0, 0, 1⟩, tgt := tgtDeuterium }

/-- A muon-neutrino initial state on a free proton. -/
def isNuFreeProton : InitialState :=
  { probePdg := 14, probeP4 := ⟨0, 0, 0, 1⟩, tgt := tgtFreeProton }

/-- An electron probe (unsupported species) on deuterium. -/
def isElecDeuterium : InitialState :=
  { probePdg := 11, probeP4 := ⟨0, 0, 0, 1⟩, tgt := tgtDeuterium }

/-- An anti-muon-neutrino initial state on deuterium. -/
def isNubDeuterium : InitialState :=
  { probePdg := -14, probeP4 := ⟨0, 0, 0, 1⟩, tgt := tgtDeuterium }

/-- A muon-neutrino initial state on an empty default target (Z=0, A=0). -/
def isNuEmptyTarget : InitialState :=
  { probePdg := 14, probeP4 := ⟨0, 0, 0, 1⟩, tgt := initTarget }

/-- A non-ion target with a struck quark set, reachable as Target(11)
followed by SetStruckQuarkPDGCode(2): the electron target of the class
documentation carrying a struck up quark. -/
def copyCounterTarget : Target := { initTarget with fTgtPDG := 11, fStruckQuarkPDG := 2 }

/-- C7 conclusion: after the operation the target is a free nucleon and
its struck-nucleon sub-state matches Z, with the at-rest on-shell
four-momentum carrying the table mass of that nucleon. -/
def FreeNucleonAutoStruck (res : Option Target) (Zv : Int) (pp pn : Particle) : Prop :=
  res.map Target.IsFreeNucleon = some true ∧
  res.map Target.fStruckNucPDG = some (if Zv = 1 then kPdgProton else kPdgNeutron) ∧
  res.map Target.fStruckNucP4 = some ⟨0, 0, 0, if Zv = 1 then pp.mass else pn.mass⟩

/-- C5 conclusion: selection on a non-empty list returns the heap extended
with exactly one freshly allocated cell, holding the element at the drawn
address with the probe four-momentum injected, and an EventRecord whose
attached summary is that fresh cell; the fresh address is distinct from
every address owned by the list, and every cell of the original heap
(the list elements included) is left unchanged. -/
def SelectClonesProp (rnd : Nat → Nat) (heap : List Interaction)
    (m : IGMap) (p4 : P4) : Prop :=
  selectInteraction rnd heap (some m) p4 =
      some (heap ++
              [injectProbe p4
                (heap.getD (m.ilist.getD (rnd m.ilist.length) 0) dummyInteraction)],
            { summary := heap.length }) ∧
  heap.length ∉ m.ilist ∧
  (∀ a ∈ m.ilist,
    (heap ++
      [injectProbe p4
        (heap.getD (m.ilist.getD (rnd m.ilist.length) 0) dummyInteraction)]).getD
        a dummyInteraction = heap.getD a dummyInteraction)

/-- C9: for every InitialState, DfrcInteractionListGenerator returns a
non-null, valid, empty InteractionList (the not-modeled outcome) and never
the null no-viable-channel result. -/
theorem dfrc_create_interaction_list_empty_valid (s : InitialState) :
    dfrcCreateInteractionList s = some [] := rfl

/-- C10: setting the same valid struck-nucleon code twice leaves the
Target (code and four-momentum included) exactly as setting it once. -/
theorem target_set_struck_nucleon_idempotent (lib : PDGLib) (c : Int) (t : Target)
    (hc : c = kPdgProton ∨ c = kPdgNeutron) :
    (t.SetStruckNucleonPDGCode lib c).bind (Target.SetStruckNucleonPDGCode lib c) =
      t.SetStruckNucleonPDGCode lib c := by
  rcases hc with h | h <;> subst h
  · cases hfind : lib.find kPdgProton with
    | none =>
        simp [Target.SetStruckNucleonPDGCode, Target.ForceStruckNucleonValidity,
              pdgIsProton, pdgIsNeutron, hfind]
    | some p =>
        simp [Target.SetStruckNucleonPDGCode, Target.ForceStruckNucleonValidity,
              pdgIsProton, pdgIsNeutron, hfind, Target.SetStruckNucleonP4]
  · cases hfind : lib.find kPdgNeutron with
    | none =>
        simp [Target.SetStruckNucleonPDGCode, Target.ForceStruckNucleonValidity,
              pdgIsProton, pdgIsNeutron, hfind]
    | some p =>
        simp [Target.SetStruckNucleonPDGCode, Target.ForceStruckNucleonValidity,
              pdgIsProton, pdgIsNeutron, hfind, Target.SetStruckNucleonP4]

/-- Witness for C10 at the proton code on a fresh target with the
concrete table. -/
theorem target_set_struck_nucleon_idempotent_witness :
    (kPdgProton = kPdgProton ∨ kPdgProton = kPdgNeutron) ∧
    ((initTarget.SetStruckNucleonPDGCode concLib kPdgProton).bind
        (Target.SetStruckNucleonPDGCode concLib kPdgProton) =
      initTarget.SetStruckNucleonPDGCode concLib kPdgProton) :=
  ⟨Or.inl rfl,
   target_set_struck_nucleon_idempotent concLib kPdgProton initTarget (Or.inl rfl)⟩

/-- C6: any (Z,A) that is neither a free nucleon nor a known isotope is
reset by SetZA to Z = A = 0 (an invalid nucleus), and the operation
completes normally (it returns a Target, only logging a warning). -/
theorem target_setZA_invalid_resets (lib : PDGLib) (Zv Av : Int) (t : Target)
    (hfree : ¬(Av = 1 ∧ (Zv = 0 ∨ Zv = 1)))
    (hiso : lib.find (ionPdgCode Av Zv) = none)
    (h00 : lib.find (ionPdgCode 0 0) = none) :
    t.SetZA lib Zv Av = some { t with fZ := 0, fA := 0 } ∧
    Target.IsValidNucleus lib { t with fZ := 0, fA := 0 } = false := by
  constructor
  · simp [Target.SetZA, Target.ForceNucleusValidity, Target.IsValidNucleus,
          Target.IsFreeNucleon, hiso, hfree, h00]
  · simp [Target.IsValidNucleus, Target.IsFreeNucleon, h00]

/-- Witness for C6 at (Z,A) = (5,7), absent from the concrete table. -/
theorem target_setZA_invalid_resets_witness :
    (¬((7 : Int) = 1 ∧ ((5 : Int) = 0 ∨ (5 : Int) = 1))) ∧
    concLib.find (ionPdgCode 7 5) = none ∧
    concLib.find (ionPdgCode 0 0) = none ∧
    (initTarget.SetZA concLib 5 7 = some { initTarget with fZ := 0, fA := 0 } ∧
      Target.IsValidNucleus concLib { initTarget with fZ := 0, fA := 0 } = false) :=
  ⟨by decide, by decide, by decide,
   target_setZA_invalid_resets concLib 5 7 initTarget (by decide) (by decide) (by decide)⟩


/-- C7: for a free-nucleon (Z,A), both the (Z,A) constructor and SetZA on
any target auto-populate the struck nucleon to the proton for Z=1 and the
neutron for Z=0, at rest and on shell with the table mass. -/
theorem target_free_nucleon_auto_struck (lib : PDGLib) (pp pn : Particle)
    (hP : lib.find kPdgProton = some pp) (hN : lib.find kPdgNeutron = some pn)
    (Zv Av : Int) (t : Target) (hfree : Av = 1 ∧ (Zv = 0 ∨ Zv = 1)) :
    FreeNucleonAutoStruck (t.SetZA lib Zv Av) Zv pp pn ∧
    FreeNucleonAutoStruck (mkTargetZA lib Zv Av) Zv pp pn := by
  obtain ⟨hA, hZ⟩ := hfree
  subst hA
  have hP2 : lib.find 2212 = some pp := hP
  have hN2 : lib.find 2112 = some pn := hN
  rcases hZ with hZ | hZ <;> subst hZ <;>
    constructor <;>
      simp [FreeNucleonAutoStruck, mkTargetZA, Target.SetZA,
            Target.ForceNucleusValidity, Target.IsValidNucleus,
            Target.IsFreeNucleon, Target.IsProton,
            Target.SetStruckNucleonPDGCode, Target.ForceStruckNucleonValidity,
            Target.SetStruckNucleonP4, pdgIsProton, pdgIsNeutron,
            kPdgProton, kPdgNeutron, hP2, hN2]

/-- Witness for C7 at a free proton (Z=1, A=1) with the concrete table. -/
theorem target_free_nucleon_auto_struck_witness :
    concLib.find kPdgProton = some concProton ∧
    concLib.find kPdgNeutron = some concNeutron ∧
    ((1 : Int) = 1 ∧ ((1 : Int) = 0 ∨ (1 : Int) = 1)) ∧
    (FreeNucleonAutoStruck (initTarget.SetZA concLib 1 1) 1 concProton concNeutron ∧
      FreeNucleonAutoStruck (mkTargetZA concLib 1 1) 1 concProton concNeutron) :=
  ⟨rfl, rfl, by decide,
   target_free_nucleon_auto_struck concLib concProton concNeutron rfl rfl 1 1
     initTarget (by decide)⟩

/-- C3 (bounds analysis): with the stack arrays modelled at their declared
lengths and every access bounds checked, the write sequence that fills
nunc_channels hits the out-of-bounds branch at index 3 for a neutrino and
for an antineutrino probe (the array is declared with n_nucc_channels = 3
although n_nunc_channels = 4 entries are written and read), while every
access to nucc_channels stays in bounds; the NC loop reads over a
declared-length nunc array would go out of bounds as well. -/
theorem rspp_nunc_channels_out_of_bounds :
    nuncChannelsArr 14 = none ∧
    nuncChannelsArr (-14) = none ∧
    nuccChannelsArr 14 = some nuCCchannels ∧
    nuccChannelsArr (-14) = some nubCCchannels ∧
    (nuccChannelsArr 14).map ccLoopReadsOk = some true ∧
    ncLoopReadsOk (List.replicate n_nucc_channels SppChannel_t.kSppNull) = false := by
  decide

/-- C8 counterexample: a non-ion target reachable through the public
constructors, the electron target of the class documentation with a struck
up quark, loses its struck-quark code under Copy, so the copy is not equal
to the source on all listed observers. -/
theorem target_copy_claim_counterexample :
    mkTargetPdg concLib 11 = some { initTarget with fTgtPDG := 11 } ∧
    Target.SetStruckQuarkPDGCode 2 { initTarget with fTgtPDG := 11 } = copyCounterTarget ∧
    ¬((Target.Copy concLib copyCounterTarget).fStruckQuarkPDG =
        copyCounterTarget.fStruckQuarkPDG) := by
  decide

/-- C8 (amended): for a Target whose PDG code is an ion code and whose
fields are fixpoints of the two validity-forcing operations (as every
target built through the public operations is), Copy reproduces the
source exactly: equal on Z, A, PDG code, struck-nucleon code,
struck-quark code, sea-quark flag and the struck-nucleon four-momentum,
which is held as an owned value of the copy. -/
theorem target_copy_preserves_ion (lib : PDGLib) (t : Target)
    (hion : pdgIsIon t.fTgtPDG = true)
    (hza : t.ForceNucleusValidity lib = t)
    (hnuc : t.ForceStruckNucleonValidity.2 = t) :
    t.Copy lib = t := by
  have h : t.Copy lib = (t.ForceNucleusValidity lib).ForceStruckNucleonValidity.2 := by
    simp [Target.Copy, hion]
  rw [h, hza, hnuc]

/-- Witness for the amended C8 at the deuterium target with the concrete
table. -/
theorem target_copy_preserves_ion_witness :
    pdgIsIon tgtDeuterium.fTgtPDG = true ∧
    tgtDeuterium.ForceNucleusValidity concLib = tgtDeuterium ∧
    tgtDeuterium.ForceStruckNucleonValidity.2 = tgtDeuterium ∧
    Target.Copy concLib tgtDeuterium = tgtDeuterium :=
  ⟨by decide, by decide, by decide,
   target_copy_preserves_ion concLib tgtDeuterium (by decide) (by decide) (by decide)⟩

/-- C4: for every probe four-momentum, SelectInteraction returns NULL
exactly when the supplied handle is null or the interaction list it
carries has zero elements, and a non-null EventRecord otherwise. -/
theorem toy_select_interaction_null_iff (rnd : Nat → Nat)
    (heap : List Interaction) (igmap : Option IGMap) (p4 : P4) :
    selectInteraction rnd heap igmap p4 = none ↔
      igmap = none ∨ igmap = some { ilist := [] } := by
  cases igmap with
  | none => simp [selectInteraction]
  | some m =>
      cases m with
      | mk l =>
          cases l with
          | nil => simp [selectInteraction]
          | cons a rest => simp [selectInteraction]


/-- C5: for a non-null handle over a non-empty list whose addresses all
lie inside the heap and a draw respecting the random-service contract,
the returned EventRecord attaches a deep copy of the drawn element with
the supplied probe four-momentum injected, allocated at a fresh address,
while the list keeps owning its unchanged elements. -/
theorem toy_select_interaction_clones (rnd : Nat → Nat)
    (heap : List Interaction) (m : IGMap) (p4 : P4)
    (hne : m.ilist ≠ [])
    (hwf : ∀ a ∈ m.ilist, a < heap.length)
    (hrnd : rnd m.ilist.length < m.ilist.length) :
    SelectClonesProp rnd heap m p4 := by
  refine ⟨?_, ?_, ?_⟩
  · cases hl : m.ilist with
    | nil => exact absurd hl hne
    | cons a rest => simp [selectInteraction, hl]
  · intro hmem
    exact absurd (hwf heap.length hmem) (lt_irrefl heap.length)
  · intro a hmem
    exact List.getD_append heap _ dummyInteraction a (hwf a hmem)

/-- Witness for C5: a one-element heap owned by a one-element list, with a
constant draw. -/
theorem toy_select_interaction_clones_witness :
    (([0] : List Nat) ≠ []) ∧
    (∀ a ∈ ([0] : List Nat), a < ([dummyInteraction] : List Interaction).length) ∧
    ((fun _ : Nat => 0) ([0] : List Nat).length < ([0] : List Nat).length) ∧
    SelectClonesProp (fun _ => 0) [dummyInteraction] { ilist := [0] } ⟨1, 2, 3, 4⟩ :=
  ⟨by decide, by decide, by decide,
   toy_select_interaction_clones (fun _ => 0) [dummyInteraction] { ilist := [0] }
     ⟨1, 2, 3, 4⟩ (by decide) (by decide) (by decide)⟩

/-- C1 (evaluation of the code at the failing inputs): in the
bounds-faithful embedding every neutrino-probe run of
CreateInteractionList aborts at the out-of-bounds nunc_channels fill (the
undefined outcome) instead of returning the filtered channel table the
claim describes - on deuterium in CC and in NC mode, and on a free proton
in CC mode, alike - while with the declared length repaired to
n_nunc_channels the same embedding returns exactly the claimed
candidates: the three CC channels with pairwise distinct struck-nucleon
and final-state signatures on a target with both nucleons, and the single
proton-initiated channel on a pure-proton target. -/
theorem rspp_enumeration_out_of_bounds :
    createInteractionList concLib true false isNuDeuterium = none ∧
    createInteractionList concLib false true isNuDeuterium = none ∧
    createInteractionList concLib true false isNuFreeProton = none ∧
    (createInteractionListFixed concLib true false isNuDeuterium).map
        (Option.map (List.map sppSignature)) =
      some (some [(2212, ⟨1, 0, 1, 0, 0⟩), (2112, ⟨1, 0, 0, 1, 0⟩),
                  (2112, ⟨0, 1, 1, 0, 0⟩)]) ∧
    (createInteractionListFixed concLib true false isNuFreeProton).map
        (Option.map (List.map sppSignature)) =
      some (some [(2212, ⟨1, 0, 1, 0, 0⟩)]) := by
  decide

/-- C2 (evaluation of the code at the failing inputs): the
unsupported-probe half of the claim holds in the bounds-faithful
embedding (an electron probe gets the NULL return before any array is
filled), but every supported-probe run aborts at the out-of-bounds
nunc_channels fill instead of returning NULL (empty target, or both
current flags unset) or a non-null non-empty list (antineutrino CC on
deuterium); with the declared length repaired the embedding meets the
claimed null contract at those same inputs. -/
theorem rspp_null_contract_out_of_bounds :
    createInteractionList concLib true false isElecDeuterium = some none ∧
    createInteractionList concLib true false isNuEmptyTarget = none ∧
    createInteractionList concLib true false isNubDeuterium = none ∧
    createInteractionList concLib false false isNubDeuterium = none ∧
    createInteractionListFixed concLib true false isNuEmptyTarget = some none ∧
    (createInteractionListFixed concLib true false isNubDeuterium).map
        (Option.map List.length) = some (some 3) ∧
    createInteractionListFixed concLib false false isNubDeuterium = some none := by
  decide
